import Mathlib

/-!
Verification development for the AVIATE document-interpretation pipeline.

The repository's visible source is the React frontend (`src/frontend/src/App.jsx`);
the backend pipeline (Content Extractor, Interpretation Engine, Artifact Builder,
Job Orchestrator) is specified but its code is not in the repository, so those
components are modelled from the specification text.  The frontend upload handler
and download buttons are embedded faithfully from `App.jsx`.
-/

namespace Aviate

/-! ## Frontend embedding (from src/frontend/src/App.jsx) -/

/-- The React component state of `App`: the six `useState` hooks
(`summary`, `pullSheet`, `bom`, `notes`, `filename`, `loading`). -/
structure AppState where
  summary : String
  pullSheet : String
  bom : String
  notes : String
  filename : String
  loading : Bool
deriving DecidableEq, Repr

/-- The initial component state: all strings empty, `loading` false. -/
def initialState : AppState :=
  { summary := "", pullSheet := "", bom := "", notes := "", filename := "", loading := false }

/-- A selected file carried by the upload event (`event.target.files[0]`). -/
structure UploadFile where
  name : String
deriving DecidableEq, Repr

/-- The JSON body of a successful `/upload` response as the handler reads it:
the four fields it accesses (`summary`, `cable_pull_sheet`, `reflected_bom`,
`notes`), plus `extra`, modelling every other member of the JSON object,
which the handler never touches.  `notes := none` models a response whose
`notes` field is absent or not an array, so that `.join` throws. -/
structure ResponseData where
  summary : String
  cable_pull_sheet : String
  reflected_bom : String
  notes : Option (List String)
  extra : List (String × String)
deriving DecidableEq, Repr

/-- Outcome of the `fetch("/upload", ...)` call as observed by the handler:
the network call itself rejecting, a non-ok HTTP status, `response.json()`
rejecting, or a parsed JSON body. -/
inductive FetchOutcome where
  | fetchError (msg : String)
  | notOk
  | jsonError (msg : String)
  | ok (data : ResponseData)
deriving DecidableEq, Repr

/-- What one execution of `handleUpload` produced: the final component state,
whether a network request was issued, and the message passed to `alert`
(if the catch branch ran). -/
structure HandleResult where
  state : AppState
  requestIssued : Bool
  alerted : Option String
deriving DecidableEq, Repr

/-- Embedding of `handleUpload` from `App.jsx`.  Mirrors the source line by
line: early return when no file is selected; `setFilename`/`setLoading(true)`;
the `try` block throwing `"Upload failed"` on a non-ok response; on a parsed
body, `setSummary`, `setPullSheet`, `setBOM` are issued first and
`data.notes.join("\n")` only afterwards, so a missing/non-array `notes` throws
a TypeError after those three updates; `catch` alerts the error message; the
`finally` clause sets `loading` to false on every path that entered the try. -/
def handleUpload (s : AppState) (file : Option UploadFile) (outcome : FetchOutcome) :
    HandleResult :=
  match file with
  | none => { state := s, requestIssued := false, alerted := none }
  | some f =>
    let s1 : AppState := { s with filename := f.name, loading := true }
    match outcome with
    | .fetchError msg =>
      { state := { s1 with loading := false }, requestIssued := true, alerted := some msg }
    | .notOk =>
      { state := { s1 with loading := false }, requestIssued := true,
        alerted := some "Upload failed" }
    | .jsonError msg =>
      { state := { s1 with loading := false }, requestIssued := true, alerted := some msg }
    | .ok data =>
      match data.notes with
      | some ns =>
        { state := { s1 with
            summary := data.summary,
            pullSheet := data.cable_pull_sheet,
            bom := data.reflected_bom,
            notes := String.intercalate "\n" ns,
            loading := false },
          requestIssued := true, alerted := none }
      | none =>
        { state := { s1 with
            summary := data.summary,
            pullSheet := data.cable_pull_sheet,
            bom := data.reflected_bom,
            loading := false },
          requestIssued := true,
          alerted := some "data.notes.join is not a function" }

/-- The render gate for the results block in `App`: `!loading && summary`
(a string is truthy in JS exactly when it is non-empty). -/
def showsResults (s : AppState) : Bool :=
  !s.loading && !(s.summary == "")

/-- The six download-button paths of `App`, in source order:
pull sheet PDF/CSV, BOM PDF/CSV, summary PDF, verification PDF. -/
def artifactPaths (filename : String) : List String :=
  [ "/files/" ++ filename ++ "_pullsheet.pdf",
    "/files/" ++ filename ++ "_pullsheet.csv",
    "/files/" ++ filename ++ "_bom.pdf",
    "/files/" ++ filename ++ "_bom.csv",
    "/files/" ++ filename ++ "_summary.pdf",
    "/files/" ++ filename ++ "_verification.pdf" ]

/-- The artifact suffixes of the naming convention. -/
def artifactSuffixes : List String := ["pullsheet", "bom", "summary", "verification"]

/-- The artifact extensions of the naming convention. -/
def artifactExts : List String := ["pdf", "csv"]

/-! ## Backend data model (spec §3); the backend source is not in the repository -/

/-- Modelled from the spec: a detected device of the `InterpretationResult`
device list — name, type, location hint (spec §3). -/
structure Device where
  name : String
  type : String
  location : String
deriving DecidableEq, Repr

/-- Modelled from the spec: a routing/control path — source, destination,
signal type (spec §3); endpoints reference devices by name. -/
structure RoutingPath where
  source : String
  destination : String
  signalType : String
deriving DecidableEq, Repr

/-- Modelled from the spec: the `InterpretationResult` record — device list,
routing/control paths, freeform notes (ordered list of strings) and a summary
narrative (spec §3). -/
structure InterpretationResult where
  devices : List Device
  paths : List RoutingPath
  notes : List String
  summary : String
deriving DecidableEq, Repr

/-- Whether the device list contains a device with the given name. -/
def hasDeviceNamed (ds : List Device) (n : String) : Bool :=
  ds.any (fun d => d.name == n)

/-- Whether both endpoints of a routing path are present in the device list. -/
def keepPath (ds : List Device) (p : RoutingPath) : Bool :=
  hasDeviceNamed ds p.source && hasDeviceNamed ds p.destination

/-- Referential integrity of an `InterpretationResult` (spec §3 invariant):
every routing path references only devices present in the device list. -/
def referencesOk (r : InterpretationResult) : Bool :=
  r.paths.all (keepPath r.devices)

/-! ## Interpretation Engine: chunk merge (spec §4.2); modelled from the spec -/

/-- Two devices share the (name, location) identity used by chunk-merge
deduplication (spec §4.2 and §9). -/
def sameIdentity (a b : Device) : Bool :=
  a.name == b.name && a.location == b.location

/-- Whether the device list contains a device with the given (name, location)
identity. -/
def hasIdentity (ds : List Device) (n l : String) : Bool :=
  ds.any (fun d => d.name == n && d.location == l)

/-- Modelled from the spec: deduplication of merged device lists by
(name, location) identity, keeping the first occurrence of each identity
(spec §4.2: "devices are deduplicated by (name, location) identity"). -/
def dedupDevices : List Device → List Device
  | [] => []
  | d :: ds => d :: (dedupDevices ds).filter (fun e => !(sameIdentity d e))

/-- No two entries of the list share the (name, location) identity. -/
def noDupDevices : List Device → Bool
  | [] => true
  | d :: ds => !(ds.any (sameIdentity d)) && noDupDevices ds

/-- The note recorded when a routing path is dropped during chunk merge
because it references a device absent after deduplication (spec §4.2). -/
def dropNote (p : RoutingPath) : String :=
  "dropped routing path " ++ p.source ++ " -> " ++ p.destination ++
    ": referenced device absent after dedup"

/-- All devices of a list of chunk results, in chunk order. -/
def allDevices (chunks : List InterpretationResult) : List Device :=
  (chunks.map InterpretationResult.devices).flatten

/-- All routing paths of a list of chunk results, in chunk order. -/
def allPaths (chunks : List InterpretationResult) : List RoutingPath :=
  (chunks.map InterpretationResult.paths).flatten

/-- Modelled from the spec: the Interpretation Engine's chunk-merge policy
(spec §4.2): devices are deduplicated by (name, location) identity; routing
paths referencing devices absent after dedup are dropped, each with a
recorded note; surviving paths and chunk notes are concatenated in order;
summaries are joined. -/
def mergeResults (chunks : List InterpretationResult) : InterpretationResult :=
  let devices := dedupDevices (allDevices chunks)
  let kept := (allPaths chunks).filter (keepPath devices)
  let dropped := (allPaths chunks).filter (fun p => !(keepPath devices p))
  { devices := devices,
    paths := kept,
    notes := (chunks.map InterpretationResult.notes).flatten ++ dropped.map dropNote,
    summary := String.intercalate "\n" (chunks.map InterpretationResult.summary) }

/-- Modelled from the spec: `interpret` (spec §4.2).  The language model is a
black box, so its parsed per-chunk structured outputs are the input here; a
small document yields a single chunk.  The engine merges the chunk results and
thereby enforces the referential-integrity invariant before returning. -/
def interpret (chunkOutputs : List InterpretationResult) : InterpretationResult :=
  mergeResults chunkOutputs

/-! ## Artifact Builder (spec §4.3); modelled from the spec -/

/-- Modelled from the spec: the four artifact kinds (spec §3). -/
inductive ArtifactKind where
  | summaryKind
  | pullSheetKind
  | bomKind
  | verificationKind
deriving DecidableEq, Repr

/-- Modelled from the spec: a named output in two renderings — a structured
table (CSV) and a printable document (spec §3). -/
structure Artifact where
  kind : ArtifactKind
  tabular : String
  printable : String
deriving DecidableEq, Repr

/-- One CSV row of the cable pull sheet: endpoints and signal type. -/
def pullSheetRow (p : RoutingPath) : String :=
  p.source ++ "," ++ p.destination ++ "," ++ p.signalType

/-- Tabular rendering of the cable pull sheet. -/
def pullSheetTable (r : InterpretationResult) : String :=
  String.intercalate "\n" ("source,destination,signal_type" :: r.paths.map pullSheetRow)

/-- One CSV row of the reflected BOM: a detected device. -/
def bomRow (d : Device) : String :=
  d.name ++ "," ++ d.type ++ "," ++ d.location

/-- Tabular rendering of the reflected BOM. -/
def bomTable (r : InterpretationResult) : String :=
  String.intercalate "\n" ("name,type,location" :: r.devices.map bomRow)

/-- Tabular rendering of the verification notes. -/
def notesTable (r : InterpretationResult) : String :=
  String.intercalate "\n" ("note" :: r.notes)

/-- Printable rendering: a deterministic page wrapper around a title and body. -/
def printable (title body : String) : String :=
  "%PDF " ++ title ++ "\n" ++ body

/-- Modelled from the spec: `build` (spec §4.3) — deterministically renders,
for each artifact kind, a tabular and a print-ready form from the same
`InterpretationResult`; pure, with no hidden randomness or external calls. -/
def build (r : InterpretationResult) : List Artifact :=
  [ { kind := .summaryKind,
      tabular := r.summary,
      printable := printable "System Summary" r.summary },
    { kind := .pullSheetKind,
      tabular := pullSheetTable r,
      printable := printable "Cable Pull Sheet" (pullSheetTable r) },
    { kind := .bomKind,
      tabular := bomTable r,
      printable := printable "Reflected BOM" (bomTable r) },
    { kind := .verificationKind,
      tabular := notesTable r,
      printable := printable "System Verification Notes" (notesTable r) } ]

/-! ## Content Extractor (spec §4.1); modelled from the spec -/

/-- Modelled from the spec: an uploaded document — filename, declared MIME
type, raw bytes (spec §3). -/
structure UploadedDocument where
  filename : String
  mime : String
  bytes : List Nat
deriving DecidableEq, Repr

/-- Modelled from the spec: one unit of extracted content — page number, raw
text, confidence indicator, and a low-confidence flag (spec §3, §4.1:
low-confidence segments are retained but flagged, never dropped). -/
structure Segment where
  page : Nat
  text : String
  confidence : Nat
  flagged : Bool
deriving DecidableEq, Repr

/-- Modelled from the spec: extraction-stage errors (spec §4.1, §7). -/
inductive ExtractError where
  | unreadable
  | empty
deriving DecidableEq, Repr

/-- The MIME types the pipeline accepts (spec §6: PDF or common raster
image formats). -/
def supportedMimes : List String :=
  ["application/pdf", "image/png", "image/jpeg"]

/-- Split a PDF byte stream into per-page byte runs at form-feed bytes. -/
def splitPages : List Nat → List (List Nat)
  | [] => [[]]
  | b :: bs =>
    let rest := splitPages bs
    if b == 12 then [] :: rest
    else
      match rest with
      | [] => [[b]]
      | pg :: pgs => (b :: pg) :: pgs

/-- Decode a byte run to text: printable ASCII bytes become characters,
everything else is normalized away (post-normalization, spec §4.1). -/
def decodeText (bs : List Nat) : String :=
  String.mk ((bs.filter (fun b => 32 ≤ b && b ≤ 126)).map Char.ofNat)

/-- The configured low-confidence threshold (spec §4.1). -/
def confidenceThreshold : Nat := 50

/-- The deterministic confidence indicator of one byte run: degraded when the
run contains bytes outside printable ASCII and whitespace. -/
def confidenceOf (bs : List Nat) : Nat :=
  if bs.any (fun b => b != 9 && b != 10 && b != 13 && (b < 32 || 126 < b)) then 40 else 90

/-- Build the segment of one page from its byte run. -/
def mkSegment (page : Nat) (bs : List Nat) : Segment :=
  let c := confidenceOf bs
  { page := page, text := decodeText bs, confidence := c,
    flagged := c < confidenceThreshold }

/-- Modelled from the spec: `extract` (spec §4.1) — fails with
`UnreadableDocumentError` on an unsupported format or a corrupt (zero-byte)
file, and with `EmptyDocumentError` when no page yields usable content; PDF
pages are processed independently, a raster image is one segment;
deterministic in the document's bytes and MIME type. -/
def extract (doc : UploadedDocument) : Except ExtractError (List Segment) :=
  if !(supportedMimes.contains doc.mime) then
    .error .unreadable
  else if doc.bytes.isEmpty then
    .error .unreadable
  else
    let segs :=
      if doc.mime == "application/pdf" then
        ((splitPages doc.bytes).enum.map fun pr => mkSegment pr.1 pr.2)
      else
        [mkSegment 0 doc.bytes]
    if segs.all (fun s => s.text == "") then .error .empty else .ok segs

/-! ## Job Orchestrator (spec §4.4); modelled from the spec -/

/-- Modelled from the spec: engine-stage errors (spec §4.2, §7). -/
inductive InterpError where
  | timeout
  | malformed
deriving DecidableEq, Repr

/-- What the orchestrator hands back to the caller: a failure reason when the
job reached the `Failed` terminal state, otherwise the interpretation result
and the references (not content) to the generated artifacts. -/
structure JobOutcome where
  failureReason : Option String
  interp : Option InterpretationResult
  artifactRefs : List String
deriving DecidableEq, Repr

/-- Modelled from the spec: the Job Orchestrator's end-to-end lifecycle
(spec §4.4): Extractor, then Interpretation Engine, then Artifact Builder,
strictly in sequence.  The language-model backend is a black box, so its
call outcome (parsed per-chunk structured outputs, or an engine-stage error)
is a parameter.  On failure at any stage the job stops with a single terminal
failure and returns no artifact references. -/
def runJob (doc : UploadedDocument)
    (modelCall : Except InterpError (List InterpretationResult)) : JobOutcome :=
  match extract doc with
  | .error .unreadable =>
    { failureReason := some "UnreadableDocumentError", interp := none, artifactRefs := [] }
  | .error .empty =>
    { failureReason := some "EmptyDocumentError", interp := none, artifactRefs := [] }
  | .ok _content =>
    match modelCall with
    | .error .timeout =>
      { failureReason := some "InterpretationTimeoutError", interp := none, artifactRefs := [] }
    | .error .malformed =>
      { failureReason := some "MalformedResponseError", interp := none, artifactRefs := [] }
    | .ok chunks =>
      let r := interpret chunks
      let _arts := build r
      { failureReason := none, interp := some r,
        artifactRefs := artifactPaths doc.filename }

/-! ## Helper lemmas -/

theorem all_filter_self {α : Type} (l : List α) (p : α → Bool) :
    (l.filter p).all p = true := by
  rw [List.all_eq_true]
  intro x hx
  exact (List.mem_filter.mp hx).2

theorem any_filter_not {α : Type} (l : List α) (q : α → Bool) :
    (l.filter fun e => !(q e)).any q = false := by
  rw [List.any_eq_false]
  intro x hx
  have h := (List.mem_filter.mp hx).2
  simp only [Bool.not_eq_true'] at h
  simp [h]

theorem any_filter_false {α : Type} (l : List α) (p q : α → Bool)
    (h : l.any p = false) : (l.filter q).any p = false := by
  rw [List.any_eq_false] at h ⊢
  intro x hx
  exact h x (List.mem_filter.mp hx).1

theorem any_filter_of_imp {α : Type} (l : List α) (p q : α → Bool)
    (h : ∀ x, p x = true → q x = true) : (l.filter q).any p = l.any p := by
  induction l with
  | nil => rfl
  | cons a t ih =>
    by_cases hq : q a = true
    · simp [List.filter_cons, hq, List.any_cons, ih]
    · have hp : p a = false := by
        cases hpa : p a
        · rfl
        · exact absurd (h a hpa) hq
      simp [List.filter_cons, hq, List.any_cons, hp, ih]

theorem noDupDevices_filter (ds : List Device) (q : Device → Bool)
    (h : noDupDevices ds = true) : noDupDevices (ds.filter q) = true := by
  induction ds with
  | nil => rfl
  | cons d t ih =>
    simp only [noDupDevices, Bool.and_eq_true, Bool.not_eq_true'] at h
    by_cases hq : q d = true
    · simp only [List.filter_cons, hq, if_true, noDupDevices, Bool.and_eq_true,
        Bool.not_eq_true']
      exact ⟨any_filter_false t (sameIdentity d) q h.1, ih h.2⟩
    · simp only [List.filter_cons, hq, if_false]
      exact ih h.2

theorem noDupDevices_dedup (ds : List Device) :
    noDupDevices (dedupDevices ds) = true := by
  induction ds with
  | nil => rfl
  | cons d t ih =>
    simp only [dedupDevices, noDupDevices, Bool.and_eq_true, Bool.not_eq_true']
    exact ⟨any_filter_not (dedupDevices t) (sameIdentity d),
      noDupDevices_filter (dedupDevices t) _ ih⟩

theorem hasIdentity_dedup (ds : List Device) (n l : String) :
    hasIdentity (dedupDevices ds) n l = hasIdentity ds n l := by
  induction ds with
  | nil => rfl
  | cons d t ih =>
    simp only [dedupDevices, hasIdentity, List.any_cons]
    by_cases hd : (d.name == n && d.location == l) = true
    · simp [hd]
    · have himp : ∀ e : Device, (e.name == n && e.location == l) = true →
          (!(sameIdentity d e)) = true := by
        intro e he
        simp only [Bool.and_eq_true, beq_iff_eq] at he
        simp only [Bool.not_eq_true', sameIdentity]
        cases hsi : (d.name == e.name && d.location == e.location)
        · rfl
        · simp only [Bool.and_eq_true, beq_iff_eq] at hsi
          exact absurd (by simp [hsi.1, hsi.2, he.1, he.2]) hd
      rw [any_filter_of_imp (dedupDevices t) _ _ himp]
      simp only [hasIdentity] at ih
      rw [ih]

/-! ## Claim theorems -/

/-- Claim C1: every `InterpretationResult` produced by `interpret` (including
results merged from chunked large documents) satisfies referential integrity:
every device referenced by a routing path as source or destination is present
in the result's device list; the engine enforces this before returning. -/
theorem interpret_referential_integrity (chunks : List InterpretationResult) :
    referencesOk (interpret chunks) = true := by
  simp only [interpret, mergeResults, referencesOk]
  exact all_filter_self _ _

/-- Claim C9: every execution of the upload handler that begins processing a
selected file ends with `loading` set back to false, on the success path and
on every error path. -/
theorem handleUpload_resets_loading (s : AppState) (f : UploadFile)
    (outcome : FetchOutcome) :
    (handleUpload s (some f) outcome).state.loading = false := by
  cases outcome with
  | fetchError msg => rfl
  | notOk => rfl
  | jsonError msg => rfl
  | ok data =>
    obtain ⟨su, cps, rb, nt, ex⟩ := data
    cases nt <;> rfl

/-- Claim C10: when the upload event carries no selected file, the handler
returns immediately: the component state is unchanged, no network request is
issued, and no alert is raised. -/
theorem handleUpload_no_file (s : AppState) (outcome : FetchOutcome) :
    handleUpload s none outcome =
      { state := s, requestIssued := false, alerted := none } := rfl

/-- Claim C2: whenever a job reaches the `Failed` terminal state at any stage,
the caller receives no artifact references and no interpretation result — a
failed job never exposes a partial `JobResult`. -/
theorem failed_job_no_artifact_refs (doc : UploadedDocument)
    (mc : Except InterpError (List InterpretationResult)) (reason : String)
    (h : (runJob doc mc).failureReason = some reason) :
    (runJob doc mc).artifactRefs = [] ∧ (runJob doc mc).interp = none := by
  cases hex : extract doc with
  | error e => cases e <;> simp [runJob, hex]
  | ok content =>
    cases mc with
    | error e => cases e <;> simp [runJob, hex]
    | ok chunks => simp [runJob, hex] at h

/-- Witness for C2: a zero-byte upload fails and exposes no artifact
references and no interpretation result. -/
theorem failed_job_no_artifact_refs_witness :
    (runJob ⟨"plan.pdf", "application/pdf", []⟩
        (Except.ok [])).failureReason = some "UnreadableDocumentError" ∧
    (runJob ⟨"plan.pdf", "application/pdf", []⟩ (Except.ok [])).artifactRefs = [] ∧
    (runJob ⟨"plan.pdf", "application/pdf", []⟩ (Except.ok [])).interp = none :=
  ⟨rfl, failed_job_no_artifact_refs ⟨"plan.pdf", "application/pdf", []⟩
    (Except.ok []) "UnreadableDocumentError" rfl⟩

/-- Claim C3: for a fixed `InterpretationResult`, two invocations of `build`
yield byte-identical artifact content in both renderings — the tabular form
and the print-ready form — with no hidden randomness or external calls
(`build` is a pure function of its argument alone). -/
theorem build_deterministic (r₁ r₂ : InterpretationResult) (h : r₁ = r₂) :
    (build r₁).map Artifact.tabular = (build r₂).map Artifact.tabular ∧
    (build r₁).map Artifact.printable = (build r₂).map Artifact.printable := by
  subst h
  exact ⟨rfl, rfl⟩

/-- Witness for C3: two invocations of `build` on one concrete
`InterpretationResult` agree byte-for-byte in both renderings. -/
theorem build_deterministic_witness :
    (build { devices := [⟨"Amp", "amplifier", "rack"⟩],
             paths := [⟨"Amp", "Spk1", "audio"⟩],
             notes := ["check gain"], summary := "one amp" }).map Artifact.tabular =
      (build { devices := [⟨"Amp", "amplifier", "rack"⟩],
               paths := [⟨"Amp", "Spk1", "audio"⟩],
               notes := ["check gain"], summary := "one amp" }).map Artifact.tabular ∧
    (build { devices := [⟨"Amp", "amplifier", "rack"⟩],
             paths := [⟨"Amp", "Spk1", "audio"⟩],
             notes := ["check gain"], summary := "one amp" }).map Artifact.printable =
      (build { devices := [⟨"Amp", "amplifier", "rack"⟩],
               paths := [⟨"Amp", "Spk1", "audio"⟩],
               notes := ["check gain"], summary := "one amp" }).map Artifact.printable :=
  build_deterministic _ _ rfl

/-- Claim C4: `extract` is deterministic on valid, non-empty documents — two
documents with identical bytes and declared MIME type (the input to
extraction) yield byte-identical `ExtractedContent`, independent of anything
else (in particular the filename). -/
theorem extract_deterministic (d₁ d₂ : UploadedDocument) (segs : List Segment)
    (hb : d₁.bytes = d₂.bytes) (hm : d₁.mime = d₂.mime)
    (hv : extract d₁ = Except.ok segs) : extract d₂ = Except.ok segs := by
  have heq : extract d₁ = extract d₂ := by
    simp only [extract, hb, hm]
  rw [← heq]
  exact hv

/-- Witness for C4: two uploads of the same PDF bytes under different
filenames extract to the same single segment. -/
theorem extract_deterministic_witness :
    extract ⟨"a.pdf", "application/pdf", [72, 105]⟩ =
      Except.ok [{ page := 0, text := "Hi", confidence := 90, flagged := false }] ∧
    extract ⟨"b.pdf", "application/pdf", [72, 105]⟩ =
      Except.ok [{ page := 0, text := "Hi", confidence := 90, flagged := false }] :=
  ⟨rfl, extract_deterministic ⟨"a.pdf", "application/pdf", [72, 105]⟩
    ⟨"b.pdf", "application/pdf", [72, 105]⟩
    [{ page := 0, text := "Hi", confidence := 90, flagged := false }]
    rfl rfl rfl⟩

/-- Claim C5: a completed job exposes exactly six artifact references — pull
sheet PDF and CSV, BOM PDF and CSV, summary PDF, verification PDF — and each
reference path is `/files/` followed by `{original-filename}_{suffix}.{ext}`
with suffix in {pullsheet, bom, summary, verification} and ext in
{pdf, csv}, exactly as the six download buttons of `App` construct them. -/
theorem artifact_refs_naming (filename p : String)
    (hp : p ∈ artifactPaths filename) :
    (artifactPaths filename).length = 6 ∧
    ∃ sfx ext, sfx ∈ artifactSuffixes ∧ ext ∈ artifactExts ∧
      p = "/files/" ++ filename ++ ("_" ++ sfx ++ "." ++ ext) := by
  refine ⟨rfl, ?_⟩
  simp only [artifactPaths, List.mem_cons, List.not_mem_nil, or_false] at hp
  rcases hp with h | h | h | h | h | h <;> subst h
  · exact ⟨"pullsheet", "pdf", by simp [artifactSuffixes], by simp [artifactExts], rfl⟩
  · exact ⟨"pullsheet", "csv", by simp [artifactSuffixes], by simp [artifactExts], rfl⟩
  · exact ⟨"bom", "pdf", by simp [artifactSuffixes], by simp [artifactExts], rfl⟩
  · exact ⟨"bom", "csv", by simp [artifactSuffixes], by simp [artifactExts], rfl⟩
  · exact ⟨"summary", "pdf", by simp [artifactSuffixes], by simp [artifactExts], rfl⟩
  · exact ⟨"verification", "pdf", by simp [artifactSuffixes], by simp [artifactExts], rfl⟩

/-- Witness for C5: the first artifact reference of a concrete job follows
the naming scheme. -/
theorem artifact_refs_naming_witness :
    (artifactPaths "plan.pdf").length = 6 ∧
    ∃ sfx ext, sfx ∈ artifactSuffixes ∧ ext ∈ artifactExts ∧
      "/files/plan.pdf_pullsheet.pdf" =
        "/files/" ++ "plan.pdf" ++ ("_" ++ sfx ++ "." ++ ext) :=
  artifact_refs_naming "plan.pdf" "/files/plan.pdf_pullsheet.pdf"
    (by simp [artifactPaths])

/-- Claim C6: on the success path the caller reads exactly the fields
`summary`, `cable_pull_sheet`, `reflected_bom` and `notes` (an ordered list
of strings) of the `JobResult`: each lands in the corresponding piece of
component state, and the outcome is independent of every other member of the
response object. -/
theorem jobresult_fields_consumed (s : AppState) (f : UploadFile)
    (su cps rb : String) (ns : List String) (e₁ e₂ : List (String × String)) :
    (handleUpload s (some f)
        (.ok ⟨su, cps, rb, some ns, e₁⟩)).state.summary = su ∧
    (handleUpload s (some f)
        (.ok ⟨su, cps, rb, some ns, e₁⟩)).state.pullSheet = cps ∧
    (handleUpload s (some f)
        (.ok ⟨su, cps, rb, some ns, e₁⟩)).state.bom = rb ∧
    (handleUpload s (some f)
        (.ok ⟨su, cps, rb, some ns, e₁⟩)).state.notes = String.intercalate "\n" ns ∧
    handleUpload s (some f) (.ok ⟨su, cps, rb, some ns, e₁⟩) =
      handleUpload s (some f) (.ok ⟨su, cps, rb, some ns, e₂⟩) :=
  ⟨rfl, rfl, rfl, rfl, rfl⟩

/-- Claim C7: merging chunked interpretation results deduplicates devices by
(name, location) identity — no two merged devices share that identity, and a
device identity survives the merge exactly when some chunk contained it —
and every routing path referencing a device absent after deduplication is
dropped from the merged result with a note recorded. -/
theorem merge_dedup_and_drop (chunks : List InterpretationResult)
    (n l : String) (p : RoutingPath) (hp : p ∈ allPaths chunks)
    (hk : keepPath (mergeResults chunks).devices p = false) :
    noDupDevices (mergeResults chunks).devices = true ∧
    hasIdentity (mergeResults chunks).devices n l =
      hasIdentity (allDevices chunks) n l ∧
    p ∉ (mergeResults chunks).paths ∧
    dropNote p ∈ (mergeResults chunks).notes := by
  simp only [mergeResults] at hk ⊢
  refine ⟨noDupDevices_dedup _, hasIdentity_dedup _ n l, ?_, ?_⟩
  · intro hmem
    have := (List.mem_filter.mp hmem).2
    rw [hk] at this
    exact Bool.false_ne_true this
  · apply List.mem_append_right
    apply List.mem_map_of_mem dropNote
    exact List.mem_filter.mpr ⟨hp, by simp [hk]⟩

/-- Witness for C7: one chunk holds a single amplifier and a path to a
speaker that is in no chunk; after merge the device list is duplicate-free,
the amplifier identity survives, the dangling path is dropped and its drop
note is recorded. -/
theorem merge_dedup_and_drop_witness :
    (⟨"Amp", "Spk", "audio"⟩ : RoutingPath) ∈
        allPaths [⟨[⟨"Amp", "amplifier", "rack"⟩], [⟨"Amp", "Spk", "audio"⟩], [], "s"⟩] ∧
    keepPath (mergeResults
        [⟨[⟨"Amp", "amplifier", "rack"⟩], [⟨"Amp", "Spk", "audio"⟩], [], "s"⟩]).devices
        ⟨"Amp", "Spk", "audio"⟩ = false ∧
    (noDupDevices (mergeResults
        [⟨[⟨"Amp", "amplifier", "rack"⟩], [⟨"Amp", "Spk", "audio"⟩], [], "s"⟩]).devices = true ∧
      hasIdentity (mergeResults
          [⟨[⟨"Amp", "amplifier", "rack"⟩], [⟨"Amp", "Spk", "audio"⟩], [], "s"⟩]).devices
          "Amp" "rack" =
        hasIdentity (allDevices
          [⟨[⟨"Amp", "amplifier", "rack"⟩], [⟨"Amp", "Spk", "audio"⟩], [], "s"⟩]) "Amp" "rack" ∧
      (⟨"Amp", "Spk", "audio"⟩ : RoutingPath) ∉ (mergeResults
          [⟨[⟨"Amp", "amplifier", "rack"⟩], [⟨"Amp", "Spk", "audio"⟩], [], "s"⟩]).paths ∧
      dropNote ⟨"Amp", "Spk", "audio"⟩ ∈ (mergeResults
          [⟨[⟨"Amp", "amplifier", "rack"⟩], [⟨"Amp", "Spk", "audio"⟩], [], "s"⟩]).notes) :=
  ⟨by decide, by decide,
    merge_dedup_and_drop
      [⟨[⟨"Amp", "amplifier", "rack"⟩], [⟨"Amp", "Spk", "audio"⟩], [], "s"⟩]
      "Amp" "rack" ⟨"Amp", "Spk", "audio"⟩ (by decide) (by decide)⟩

/-- Claim C8: when the parsed response's `notes` field is absent or not an
array, the handler throws only after `setSummary`, `setPullSheet` and
`setBOM` were issued: the alert branch runs, `loading` ends false, the
`notes` state keeps its prior value, and (whenever the new summary is
non-empty, i.e. truthy) the results block renders — a partial result built
from the new data is displayed on this error path. -/
theorem missing_notes_partial_display (s : AppState) (f : UploadFile)
    (data : ResponseData) (h : data.notes = none) :
    (handleUpload s (some f) (.ok data)).state.summary = data.summary ∧
    (handleUpload s (some f) (.ok data)).state.pullSheet = data.cable_pull_sheet ∧
    (handleUpload s (some f) (.ok data)).state.bom = data.reflected_bom ∧
    (handleUpload s (some f) (.ok data)).state.notes = s.notes ∧
    (handleUpload s (some f) (.ok data)).alerted.isSome = true ∧
    (handleUpload s (some f) (.ok data)).state.loading = false ∧
    (data.summary ≠ "" →
      showsResults (handleUpload s (some f) (.ok data)).state = true) := by
  obtain ⟨su, cps, rb, nt, ex⟩ := data
  simp only at h
  subst h
  refine ⟨rfl, rfl, rfl, rfl, rfl, rfl, ?_⟩
  intro hs
  simp [handleUpload, showsResults, hs]

/-- Witness for C8: a concrete response whose `notes` is missing leaves a
partial result rendered: the three sections carry the new data while the
notes state is stale and the alert fired. -/
theorem missing_notes_partial_display_witness :
    (handleUpload initialState (some ⟨"p.pdf"⟩)
        (.ok ⟨"S", "P", "B", none, []⟩)).state.summary = "S" ∧
    (handleUpload initialState (some ⟨"p.pdf"⟩)
        (.ok ⟨"S", "P", "B", none, []⟩)).state.pullSheet = "P" ∧
    (handleUpload initialState (some ⟨"p.pdf"⟩)
        (.ok ⟨"S", "P", "B", none, []⟩)).state.bom = "B" ∧
    (handleUpload initialState (some ⟨"p.pdf"⟩)
        (.ok ⟨"S", "P", "B", none, []⟩)).state.notes = initialState.notes ∧
    (handleUpload initialState (some ⟨"p.pdf"⟩)
        (.ok ⟨"S", "P", "B", none, []⟩)).alerted.isSome = true ∧
    (handleUpload initialState (some ⟨"p.pdf"⟩)
        (.ok ⟨"S", "P", "B", none, []⟩)).state.loading = false ∧
    (("S" : String) ≠ "" →
      showsResults (handleUpload initialState (some ⟨"p.pdf"⟩)
        (.ok ⟨"S", "P", "B", none, []⟩)).state = true) :=
  missing_notes_partial_display initialState ⟨"p.pdf"⟩ ⟨"S", "P", "B", none, []⟩ rfl

end Aviate
